import Mathlib

/-!
Verification of the lmetrics file-tailing and rule-evaluation engine.

This file gives a shallow embedding, in Lean 4, of the parts of
`lmetrics/rule.py` and `lmetrics/watch.py` that the checked properties
talk about, and proves or refutes each property against the embedding.

Conventions used throughout:

* Python code that can raise an exception is embedded as a function into
  `Except PyErr _`; an uncaught exception is an `Except.error` result.
* Python `dict`s are embedded as association lists with unique keys;
  assignment replaces the first binding in place (preserving position,
  as Python dicts do) and `del`/`pop` removes the binding.
* Python `float(s)` (an external builtin) is embedded by its acceptance
  predicate on ASCII strings, `pyFloatAccepts`, following the CPython
  grammar for `float` conversion from string: optional surrounding
  whitespace, optional sign, then a decimal literal (with underscores
  between digits and an optional exponent) or one of the case-insensitive
  special words `inf`, `infinity`, `nan`.  `float(None)` raises
  `TypeError`, which is modelled explicitly.
* External collaborators (the compiled regular expression, the Lua
  action callable, the inotify API, the filesystem, the text codec) are
  either opaque function fields of the embedded objects or explicit
  environment parameters; the embedded control flow around them is
  translated line by line from the source.
-/

/-- The Python exceptions that the embedded code can raise or catch. -/
inductive PyErr where
  /-- `TypeError`, e.g. `float(None)` or `await None`. -/
  | typeError : PyErr
  /-- `ValueError`, e.g. `float("bar")`. -/
  | valueError : PyErr
  /-- `KeyError`, raised by `del d[k]` for a missing key. -/
  | keyError : PyErr
  /-- `UnicodeDecodeError`, raised by reading a file whose bytes do not
  decode in the configured encoding. -/
  | unicodeDecodeError : PyErr
  /-- An arbitrary exception raised by a Lua rule action. -/
  | actionError (msg : String) : PyErr
  deriving DecidableEq, Repr

/-- A value stored in the mapping passed to a rule action: either the
result of `float(s)` (tagged with the source string `s`; the numeric
value itself is irrelevant to the properties proved here) or the string
kept as-is. -/
inductive PyVal where
  /-- `float(s)` succeeded; the action receives a number. -/
  | num (s : String) : PyVal
  /-- the action receives the captured string unchanged. -/
  | str (s : String) : PyVal
  deriving DecidableEq, Repr

/-- ASCII whitespace stripped by Python's `float(str)` conversion. -/
def isPySpace (c : Char) : Bool :=
  c == ' ' || c == '\t' || c == '\n' || c == '\r' || c == '\x0b' || c == '\x0c'

/-- Consume a (possibly empty) continuation of a digit run, allowing a
single underscore strictly between digits, and return the unconsumed
rest.  Models CPython's digit-with-underscore lexing for numeric
literals accepted by `float`. -/
def digitsTail : List Char → List Char
  | [] => []
  | c :: rest =>
    if c.isDigit then digitsTail rest
    else if c == '_' then
      match rest with
      | d :: rest2 => if d.isDigit then digitsTail rest2 else c :: d :: rest2
      | [] => [c]
    else c :: rest

/-- Consume a non-empty digit run (underscores allowed between digits);
`none` if the input does not start with a digit. -/
def digitsRun : List Char → Option (List Char)
  | c :: rest => if c.isDigit then some (digitsTail rest) else none
  | [] => none

/-- Consume the fractional part after a leading `'.'` has already been
consumed: an optional digit run. -/
def fracTail (l : List Char) : List Char :=
  match digitsRun l with
  | some rest => rest
  | none => l

/-- Consume a decimal floating-point literal (mantissa and optional
exponent) from a lowercased, sign-stripped character list; `none` if the
input does not start with one. -/
def parseNumber (l : List Char) : Option (List Char) :=
  let afterMantissa : Option (List Char) :=
    match l with
    | '.' :: rest => digitsRun rest
    | _ =>
      match digitsRun l with
      | some rest =>
        match rest with
        | '.' :: rest2 => some (fracTail rest2)
        | _ => some rest
      | none => none
  match afterMantissa with
  | none => none
  | some rest =>
    match rest with
    | 'e' :: rest2 =>
      match rest2 with
      | '+' :: rest3 => digitsRun rest3
      | '-' :: rest3 => digitsRun rest3
      | _ => digitsRun rest2
    | _ => some rest

/-- Whether Python's `float(s)` succeeds on the string `s` (ASCII
fragment of the CPython grammar): surrounding whitespace and an optional
sign are allowed around a decimal literal or one of the case-insensitive
words `inf`, `infinity`, `nan`.  Note that `inf`, `infinity` and `nan`
are *accepted* — `float` parses them to non-finite values rather than
raising `ValueError`. -/
def pyFloatAccepts (s : String) : Bool :=
  let l := s.data.dropWhile isPySpace
  let l := (l.reverse.dropWhile isPySpace).reverse
  let l := l.map Char.toLower
  let l := match l with
    | '+' :: rest => rest
    | '-' :: rest => rest
    | other => other
  if l == "inf".data || l == "infinity".data || l == "nan".data then true
  else
    match parseNumber l with
    | some [] => true
    | _ => false

/-- One entry of `re.Match.groupdict()`: a named group mapped to the
captured substring, or to Python `None` when the group did not
participate in the match. -/
abbrev GroupItem := String × Option String

/-- `LuaFileRule._convert_values` (rule.py lines 59–66), applied to the
items of `match.groupdict()` in order:

```python
for key, value in match_dict.items():
    try:
        values[key] = float(value)
    except ValueError:
        values[key] = value
```

`float(value)` with `value = None` raises `TypeError`, which the
`except ValueError` clause does not catch, so it propagates. -/
def convert_values : List GroupItem → Except PyErr (List (String × PyVal))
  | [] => .ok []
  | (_key, none) :: _ => .error .typeError
  | (key, some v) :: rest =>
    let pv := if pyFloatAccepts v then PyVal.num v else PyVal.str v
    match convert_values rest with
    | .error e => .error e
    | .ok tail => .ok ((key, pv) :: tail)

/-- `LuaFileRule` (rule.py lines 44–66).  The compiled regular
expression is embedded by its only use, `search` returning the match's
`groupdict()` (or `none` when there is no match); the Lua action is an
opaque callable that may raise. -/
structure LuaFileRule where
  name : String
  search : String → Option (List GroupItem)
  action : List (String × PyVal) → Except PyErr Unit

/-- `LuaFileRule.analyze_line` (rule.py lines 52–57):

```python
match = self._regexp.search(line)
if match:
    values = self._convert_values(match.groupdict())
    self._action(values)
```

There is no `try`/`except` here: an exception raised by
`_convert_values` or by the action propagates to the caller. -/
def LuaFileRule.analyze_line (r : LuaFileRule) (line : String) :
    Except PyErr Unit :=
  match r.search line with
  | none => .ok ()
  | some m =>
    match convert_values m with
    | .error e => .error e
    | .ok values => r.action values

/-- `FileAnalyzer` (rule.py lines 69–78). -/
structure FileAnalyzer where
  path : String
  rules : List LuaFileRule

/-- The loop body of `FileAnalyzer.analyze_line`: run each rule in
order; an exception raised by any rule aborts the loop and propagates
(the `for` loop has no `try`/`except`). -/
def analyzeWithRules : List LuaFileRule → String → Except PyErr Unit
  | [], _ => .ok ()
  | r :: rest, line =>
    match r.analyze_line line with
    | .error e => .error e
    | .ok _ => analyzeWithRules rest line

/-- `FileAnalyzer.analyze_line` (rule.py lines 75–78). -/
def FileAnalyzer.analyze_line (fa : FileAnalyzer) (line : String) :
    Except PyErr Unit :=
  analyzeWithRules fa.rules line

example : pyFloatAccepts "3.5" = true := by decide
example : pyFloatAccepts "inf" = true := by decide
example : pyFloatAccepts "Infinity" = true := by decide
example : pyFloatAccepts "nan" = true := by decide
example : pyFloatAccepts "-inf" = true := by decide
example : pyFloatAccepts " 12 " = true := by decide
example : pyFloatAccepts "1_0" = true := by decide
example : pyFloatAccepts "1_" = false := by decide
example : pyFloatAccepts "1__0" = false := by decide
example : pyFloatAccepts "" = false := by decide
example : pyFloatAccepts "bar" = false := by decide
example : pyFloatAccepts "1.e5" = true := by decide
example : pyFloatAccepts ".5" = true := by decide
example : pyFloatAccepts "." = false := by decide
example : pyFloatAccepts "1e" = false := by decide
example : pyFloatAccepts "+1e-3" = true := by decide
example : pyFloatAccepts "12." = true := by decide
example : pyFloatAccepts "_1" = false := by decide

/-!
## Rule registry (`rule.py` lines 81–147)

Lua execution (`lupa`) is external: a rule source file is embedded as
the list of `(name, rule)` pairs found in the script's `rules` global
after execution, in iteration order.  Object identity of the compiled
rule lists — which Python gives for free and which the sharing
properties are about — is made explicit by tagging each list built by
`_load_rules_from_file` with a fresh allocation number. -/

/-- A Lua-side rule object as harvested from the `rules` global: only
its `regexp` attribute matters to loading (the action is carried along
opaquely by the real code and plays no role in these properties). -/
structure LuaRule where
  regexp : String
  deriving DecidableEq, Repr

/-- `RuleRegistry._get_rules_from_file` (rule.py lines 108–131),
restricted to its harvesting loop over `g.rules.items()` (the Lua
execution itself is the external input `raw`):

```python
rules = {}
for name, rule in g.rules.items():
    if not rule.regexp:
        self.logger.warning(f'skipped rule "{name}" with empty regexp')
    else:
        rules[name] = rule
return rules
```

Returns the kept `(name, rule)` pairs in order together with the names
warned about (in warning order). -/
def get_rules_from_file :
    List (String × LuaRule) → List (String × LuaRule) × List String
  | [] => ([], [])
  | (name, rule) :: rest =>
    let (kept, warned) := get_rules_from_file rest
    if rule.regexp = "" then (kept, name :: warned)
    else ((name, rule) :: kept, warned)

/-- The compiled rule list held in `RuleRegistry._rules_by_file` for one
rule-source path: the `LuaFileRule` objects built from the harvested
rules (represented by their `(name, regexp)` data) plus the allocation
tag `listId` standing for Python object identity of the list. -/
structure CachedRules where
  listId : Nat
  rules : List (String × String)
  deriving DecidableEq, Repr

/-- The mutable state of a `RuleRegistry` (rule.py lines 84–86), plus
two pieces of instrumentation: `nextId` supplies fresh allocation tags,
and `execs` records each execution of a rule-source file by the Lua
runtime (in order), which is how "compiled once" is observed. -/
structure RegState where
  cache : List (String × CachedRules)
  nextId : Nat
  execs : List String
  deriving DecidableEq, Repr

/-- A fresh `RuleRegistry`. -/
def RegState.init : RegState := ⟨[], 0, []⟩

/-- Python dict assignment `d[k] = v` on an association list: replace
the first binding of `k` in place, else append. -/
def dictInsert {α β : Type} [BEq α] (k : α) (v : β) :
    List (α × β) → List (α × β)
  | [] => [(k, v)]
  | (k', v') :: rest =>
    if k' == k then (k, v) :: rest else (k', v') :: dictInsert k v rest

/-- Python dict deletion `del d[k]` / `d.pop(k, None)` on an association
list with unique keys: remove the binding of `k`. -/
def dictErase {α β : Type} [BEq α] (k : α) (l : List (α × β)) :
    List (α × β) :=
  l.filter (fun kv => !(kv.1 == k))

/-- `RuleRegistry._load_rules_from_file` (rule.py lines 93–106):

```python
rules = self._rules_by_file.get(path)
if not rules:
    lua_rules = self._get_rules_from_file(path, self._metrics)
    rules = [LuaFileRule(name, lua_rule) for name, lua_rule in lua_rules.items()]
    self._rules_by_file[path] = rules
return rules
```

`if not rules:` is taken both when the path is absent from the cache
*and* when the cached list is empty (an empty Python list is falsy).
`src` is the external Lua runtime: the contents of the `rules` global
after executing the file at a given path. -/
def load_rules_from_file (src : String → List (String × LuaRule))
    (st : RegState) (path : String) : CachedRules × RegState :=
  let cached := st.cache.lookup path
  let recompile : CachedRules × RegState :=
    let luaRules := (get_rules_from_file (src path)).1
    let rules : CachedRules :=
      ⟨st.nextId, luaRules.map (fun nr => (nr.1, nr.2.regexp))⟩
    (rules, ⟨dictInsert path rules st.cache, st.nextId + 1,
             st.execs ++ [path]⟩)
  match cached with
  | none => recompile
  | some rules => if rules.rules.isEmpty then recompile else (rules, st)

/-- The registry-level view of a `FileAnalyzer`: the log path together
with the (identity-tagged) rule list it holds. -/
structure AnalyzerRef where
  path : String
  rulesId : Nat
  rules : List (String × String)
  deriving DecidableEq, Repr

/-- `RuleRegistry.get_file_analyzer` (rule.py lines 88–91). -/
def get_file_analyzer (src : String → List (String × LuaRule))
    (st : RegState) (path : String) (rule_path : String) :
    AnalyzerRef × RegState :=
  let (rules, st') := load_rules_from_file src st rule_path
  (⟨path, rules.listId, rules.rules⟩, st')

/-- `n` successive loads of the same rule-source path against one
registry (each `get_file_analyzer` call performs exactly one such
load). -/
def loadIter (src : String → List (String × LuaRule)) (path : String) :
    Nat → RegState → RegState
  | 0, st => st
  | n + 1, st => loadIter src path n (load_rules_from_file src st path).2

/-!
## File watching (`watch.py`)

Paths are represented by the file's name within the watched parent
directory (the watcher installs a single directory watch on
`self.path.parent`, and every path it manipulates is
`self.path.parent / event.filename`).  The inotify channel is embedded
as a state recording the next descriptor to hand out, the currently
active descriptors, and — as instrumentation — the log of `ignore`
calls.  The filesystem and the text codec are environment parameters.
-/

/-- One value of `WatchedFiles._path_to_info` (watch.py line 173):
`{'path': path, 'wd': None, 'fd': None}`.  An open file object is
represented by its current read position in bytes (`fd = some pos`);
`fd = none` is Python `None` (no open handle). -/
structure FileInfo where
  path : String
  wd : Option Nat
  fd : Option Nat
  deriving DecidableEq, Repr

/-- `WatchedFiles` (watch.py lines 161–226).  `_wd_to_path` is keyed by
`Option Nat` so that the source's `self._wd_to_path.pop(wd, None)` with
`wd = None` can be embedded literally (it pops the key `None`, which is
never present, since `_wd_to_path[wd] = path` is only executed when `wd`
is neither `None` nor the default). -/
structure WatchedFiles where
  wd_to_path : List (Option Nat × String)
  path_to_info : List (String × FileInfo)
  deriving DecidableEq, Repr

/-- An empty `WatchedFiles`. -/
def WatchedFiles.empty : WatchedFiles := ⟨[], []⟩

/-- An optional argument of `WatchedFiles.set`: `none` is the `_DEFAULT`
sentinel (argument not provided), `some v` is the provided Python value
`v` (which is itself `None` or a concrete value). -/
abbrev SetArg := Option (Option Nat)

/-- `WatchedFiles.set` (watch.py lines 170–186):

```python
file_info = self._path_to_info.setdefault(
    path, {'path': path, 'wd': None, 'fd': None})
if wd is not self._DEFAULT:
    file_info['wd'] = wd
if fd is not self._DEFAULT:
    file_info['fd'] = fd
if wd is None:
    self._wd_to_path.pop(wd, None)
elif wd is not self._DEFAULT:
    self._wd_to_path[wd] = path
return file_info
```

Note the `pop(wd, None)` in the `wd is None` branch: it pops the key
`None` (not the entry's previous descriptor), so it never removes
anything. -/
def WatchedFiles.set (w : WatchedFiles) (path : String)
    (wd fd : SetArg) : FileInfo × WatchedFiles :=
  let info0 := (w.path_to_info.lookup path).getD ⟨path, none, none⟩
  let info1 := match wd with
    | none => info0
    | some v => { info0 with wd := v }
  let info2 := match fd with
    | none => info1
    | some v => { info1 with fd := v }
  let pathToInfo := dictInsert path info2 w.path_to_info
  let wdToPath := match wd with
    | some none => dictErase (none : Option Nat) w.wd_to_path
    | some (some n) => dictInsert (some n) path w.wd_to_path
    | none => w.wd_to_path
  (info2, ⟨wdToPath, pathToInfo⟩)

/-- `WatchedFiles._get_by_path` (watch.py lines 224–226):
`self._path_to_info.get(path)`.  The argument can be Python `None`
(when reached through `_get_by_wd` on an unknown descriptor), in which
case the lookup misses, since `None` is never a key. -/
def WatchedFiles.get_by_path (w : WatchedFiles) (path : Option String) :
    Option FileInfo :=
  match path with
  | none => none
  | some p => w.path_to_info.lookup p

/-- `WatchedFiles._get_by_wd` (watch.py lines 219–222). -/
def WatchedFiles.get_by_wd (w : WatchedFiles) (wd : Nat) :
    Option FileInfo :=
  w.get_by_path (w.wd_to_path.lookup (some wd))

/-- `WatchedFiles.__delitem__` for a path key (watch.py lines 202–210):
`del self._path_to_info[path]`, raising `KeyError` when absent. -/
def WatchedFiles.del_by_path (w : WatchedFiles) (path : String) :
    Except PyErr WatchedFiles :=
  if (w.path_to_info.lookup path).isSome then
    .ok ⟨w.wd_to_path, dictErase path w.path_to_info⟩
  else .error .keyError

/-- `WatchedFiles.__delitem__` for a descriptor key (watch.py lines
202–210): `path = self._get_by_wd(key)['path']` (a `TypeError` when the
lookup returns `None`), then `del self._wd_to_path[key]` and
`del self._path_to_info[path]`. -/
def WatchedFiles.del_by_wd (w : WatchedFiles) (wd : Nat) :
    Except PyErr WatchedFiles :=
  match w.get_by_wd wd with
  | none => .error .typeError
  | some info =>
    let w1 : WatchedFiles :=
      ⟨dictErase (some wd) w.wd_to_path, w.path_to_info⟩
    w1.del_by_path info.path

/-- `WatchedFiles.paths` (watch.py lines 188–190). -/
def WatchedFiles.paths (w : WatchedFiles) : List String :=
  w.path_to_info.map (fun kv => kv.1)

/-- `WatchedFiles.wds` (watch.py lines 192–194): the keys of
`_wd_to_path`. -/
def WatchedFiles.wds (w : WatchedFiles) : List (Option Nat) :=
  w.wd_to_path.map (fun kv => kv.1)

/-- The inotify channel (`butter`'s `Inotify_async`, external):
`next_wd` is the next descriptor the kernel hands out, `active` the
descriptors currently installed, and `ignored_log` records every
`inotify.ignore(wd)` call in order. -/
structure Inotify where
  next_wd : Nat
  active : List Nat
  ignored_log : List Nat
  deriving DecidableEq, Repr

/-- `inotify.watch(path, mask)`: returns a fresh watch descriptor. -/
def Inotify.watchPath (ino : Inotify) : Nat × Inotify :=
  (ino.next_wd, ⟨ino.next_wd + 1, ino.active ++ [ino.next_wd],
                 ino.ignored_log⟩)

/-- `inotify.ignore(wd)`: releases the descriptor. -/
def Inotify.ignoreWd (ino : Inotify) (wd : Nat) : Inotify :=
  ⟨ino.next_wd, ino.active.erase wd, ino.ignored_log ++ [wd]⟩

/-- The external environment of one `FileWatcher`: the glob match
`file_path.match(str(self.path))` (pathlib, external), the bytes
currently on disk at each path, and the text codec for the configured
encoding (which fails with `UnicodeDecodeError` on undecodable bytes). -/
structure WatchEnv where
  pat_match : String → Bool
  fs : String → List Nat
  decode : List Nat → Except PyErr String

/-- The mutable state of a `FileWatcher` (watch.py lines 17–29):
`task` is `self._task` (`None` until `watch()` is called), `files` is
`self._files`, `move_cookies` is `self._move_cookies`, and `emitted`
records each chunk passed to `self._stream.receive_data` (the
`StreamHelper` line splitter is external toolrack code; re-emission of
content is observable on this log). -/
structure FileWatcher where
  task : Option Unit
  files : WatchedFiles
  move_cookies : List Nat
  emitted : List String
  deriving DecidableEq, Repr

/-- `FileWatcher._get_file_fd` (watch.py lines 133–140):

```python
file_info = self._files.set(path)
fd = file_info['fd']
if fd is None:
    fd = path.open(encoding=self._encoding)
    self._files.set(path, fd=fd)
return fd
```

`path.open()` positions the new handle at byte offset 0.  Returns the
handle's current position together with the updated watcher state. -/
def FileWatcher.get_file_fd (w : FileWatcher) (path : String) :
    Nat × FileWatcher :=
  let (info, files1) := w.files.set path none none
  match info.fd with
  | some pos => (pos, { w with files := files1 })
  | none =>
    let (_, files2) := files1.set path none (some (some 0))
    (0, { w with files := files2 })

/-- `FileWatcher._close_file` (watch.py lines 142–151). -/
def FileWatcher.close_file (w : FileWatcher) (path : String) :
    FileWatcher :=
  match w.files.get_by_path (some path) with
  | none => w
  | some info =>
    match info.fd with
    | none => w
    | some _ =>
      let (_, files1) := w.files.set path none (some none)
      { w with files := files1 }

/-- `FileWatcher._read_file_content` (watch.py lines 119–126):

```python
if from_start:
    self._close_file(path)
fd = self._get_file_fd(path)
self._stream.receive_data(fd.read())
```

`fd.read()` decodes the bytes between the handle's position and the end
of the file with the configured codec — raising `UnicodeDecodeError` on
undecodable input, with nothing delivered to the stream — and advances
the handle to end of file.  There is no `try`/`except` around the read:
a decode error propagates to the caller. -/
def FileWatcher.read_file_content (env : WatchEnv) (w : FileWatcher)
    (path : String) (from_start : Bool) : Except PyErr FileWatcher :=
  let w1 := if from_start then w.close_file path else w
  let (pos, w2) := w1.get_file_fd path
  match env.decode ((env.fs path).drop pos) with
  | .error e => .error e
  | .ok chunk =>
    let (_, files1) := w2.files.set path none (some (some (env.fs path).length))
    .ok { w2 with files := files1, emitted := w2.emitted ++ [chunk] }

/-- `FileWatcher._skip_to_file_end` (watch.py lines 128–131):
`fd = self._get_file_fd(path); fd.seek(0, 2)`.  Nothing is read and
nothing reaches the stream. -/
def FileWatcher.skip_to_file_end (env : WatchEnv) (w : FileWatcher)
    (path : String) : FileWatcher :=
  let (_, w1) := w.get_file_fd path
  let (_, files1) := w1.files.set path none (some (some (env.fs path).length))
  { w1 with files := files1 }

/-- `FileWatcher._watch_file` (watch.py lines 80–84):
`wd = inotify.watch(str(path), IN_MODIFY); self._files.set(path, wd=wd)`. -/
def FileWatcher.watch_file (ino : Inotify) (w : FileWatcher)
    (path : String) : Inotify × FileWatcher :=
  let (wd, ino1) := ino.watchPath
  let (_, files1) := w.files.set path (some (some wd)) none
  (ino1, { w with files := files1 })

/-- The kind of an inotify event dispatched by the watcher. -/
inductive EvKind where
  | create : EvKind
  | movedTo : EvKind
  | movedFrom : EvKind
  | deleted : EvKind
  deriving DecidableEq, Repr

/-- A directory-level inotify event (`event.filename` is non-empty):
the decoded filename relative to the watched directory, the event kind,
and the move-correlation cookie. -/
structure DirEvent where
  kind : EvKind
  filename : String
  cookie : Nat
  deriving DecidableEq, Repr

/-- `FileWatcher._handle_dir_event` (watch.py lines 86–108):

```python
file_path = self.path.parent / event.filename.decode(self._encoding)
if not file_path.match(str(self.path)):
    return
if event.create_event or event.moved_to_event:
    if event.cookie in self._move_cookies:
        self._move_cookies.remove(event.cookie)
        self._skip_to_file_end(file_path)
    else:
        self._read_file_content(file_path, from_start=True)
    self._watch_file(inotify, file_path)
elif event.moved_from_event:
    inotify.ignore(self._files[file_path]['wd'])
    self._move_cookies.add(event.cookie)
    self._close_file(file_path)
    del self._files[file_path]
elif event.delete_event:
    self._close_file(file_path)
    del self._files[file_path]
```

`self._files[file_path]` returning `None` makes the `['wd']` subscript a
`TypeError`, and `inotify.ignore(None)` likewise fails; both are 
embedded as errors.  `set.add` inserts the cookie only when absent;
`set.remove` removes it. -/
def FileWatcher.handle_dir_event (env : WatchEnv) (ino : Inotify)
    (w : FileWatcher) (ev : DirEvent) :
    Except PyErr (Inotify × FileWatcher) :=
  let file_path := ev.filename
  if !(env.pat_match file_path) then .ok (ino, w)
  else
    match ev.kind with
    | .create | .movedTo =>
      if w.move_cookies.contains ev.cookie then
        let w1 := { w with move_cookies := w.move_cookies.erase ev.cookie }
        let w2 := w1.skip_to_file_end env file_path
        .ok (FileWatcher.watch_file ino w2 file_path)
      else
        match w.read_file_content env file_path true with
        | .error e => .error e
        | .ok w1 => .ok (FileWatcher.watch_file ino w1 file_path)
    | .movedFrom =>
      match w.files.get_by_path (some file_path) with
      | none => .error .typeError
      | some info =>
        match info.wd with
        | none => .error .typeError
        | some wd =>
          let ino1 := ino.ignoreWd wd
          let w1 := { w with move_cookies :=
            if w.move_cookies.contains ev.cookie then w.move_cookies
            else w.move_cookies ++ [ev.cookie] }
          let w2 := w1.close_file file_path
          match w2.files.del_by_path file_path with
          | .error e => .error e
          | .ok files1 => .ok (ino1, { w2 with files := files1 })
    | .deleted =>
      let w1 := w.close_file file_path
      match w1.files.del_by_path file_path with
      | .error e => .error e
      | .ok files1 => .ok (ino, { w1 with files := files1 })

/-- `FileWatcher._handle_file_event` (watch.py lines 110–117):

```python
file_info = self._files[event.wd]
if not file_info:
    return
file_path = file_info['path']
if event.modify_event:
    self._read_file_content(file_path)
```

A decode error inside `_read_file_content` propagates out of the
handler (and hence out of `_watch_loop`, terminating the watch task). -/
def FileWatcher.handle_file_event (env : WatchEnv) (w : FileWatcher)
    (wd : Nat) (modify_event : Bool) : Except PyErr FileWatcher :=
  match w.files.get_by_wd wd with
  | none => .ok w
  | some info =>
    if modify_event then w.read_file_content env info.path false
    else .ok w

/-- `FileWatcher.stop` (watch.py lines 36–48):

```python
if self._task:
    self._task.cancel()
try:
    await self._task
except asyncio.CancelledError:
    pass
for file_path in self._files.paths():
    self._close_file(file_path)
```

When `watch()` was never called, `self._task` is `None` (the class
attribute): `self._task.cancel()` is skipped, but `await self._task`
still executes and `await None` raises `TypeError`, which the
`except asyncio.CancelledError` clause does not catch.  When a task
exists, awaiting the freshly-cancelled (or already-finished) task either
returns or raises `CancelledError`, which is caught; every tracked file
is then closed. -/
def FileWatcher.stop (w : FileWatcher) : Except PyErr FileWatcher :=
  match w.task with
  | none => .error .typeError
  | some _ => .ok (w.files.paths.foldl (fun acc p => acc.close_file p) w)

/-!
## Dictionary lemmas
-/

theorem lookup_dictInsert_self {α β : Type} [BEq α] [LawfulBEq α]
    (k : α) (v : β) (l : List (α × β)) :
    (dictInsert k v l).lookup k = some v := by
  induction l with
  | nil => simp [dictInsert, List.lookup]
  | cons kv rest ih =>
    obtain ⟨k', v'⟩ := kv
    by_cases h : k' = k
    · subst h
      simp [dictInsert, List.lookup]
    · have hb : (k' == k) = false := by simp [h]
      have hb' : (k == k') = false := by
        simp [beq_iff_eq]
        exact fun he => h he.symm
      simp [dictInsert, hb, List.lookup, hb', ih]

theorem lookup_dictErase_self {α β : Type} [BEq α] [LawfulBEq α]
    (k : α) (l : List (α × β)) :
    (dictErase k l).lookup k = none := by
  induction l with
  | nil => simp [dictErase, List.lookup]
  | cons kv rest ih =>
    obtain ⟨k', v'⟩ := kv
    by_cases h : k' = k
    · subst h
      simpa [dictErase, List.lookup] using ih
    · have hb : (k' == k) = false := by simp [h]
      have hb' : (k == k') = false := by
        simp [beq_iff_eq]
        exact fun he => h he.symm
      simpa [dictErase, hb, List.lookup, hb'] using ih

/-- The entry returned by `WatchedFiles.set` is the one recorded for
the path. -/
theorem WatchedFiles.lookup_set_self (w : WatchedFiles) (p : String)
    (wd fd : SetArg) :
    ((w.set p wd fd).2).path_to_info.lookup p = some (w.set p wd fd).1 := by
  simp [WatchedFiles.set, lookup_dictInsert_self]

/-!
## Watcher component lemmas
-/

theorem get_file_fd_frame (w : FileWatcher) (p : String) :
    ((w.get_file_fd p).2).emitted = w.emitted ∧
    ((w.get_file_fd p).2).move_cookies = w.move_cookies ∧
    ((w.get_file_fd p).2).task = w.task := by
  unfold FileWatcher.get_file_fd
  cases h : ((w.files.set p none none).1).fd <;> simp [h]

/-- After `_get_file_fd`, the entry for the path keeps its previous
`path` and `wd` fields and holds an open handle. -/
theorem get_file_fd_lookup (w : FileWatcher) (p : String) :
    ∃ pos,
      ((w.get_file_fd p).2).files.path_to_info.lookup p =
        some ⟨((w.files.path_to_info.lookup p).getD ⟨p, none, none⟩).path,
              ((w.files.path_to_info.lookup p).getD ⟨p, none, none⟩).wd,
              some pos⟩ := by
  cases hl : w.files.path_to_info.lookup p with
  | none =>
    refine ⟨0, ?_⟩
    simp [FileWatcher.get_file_fd, WatchedFiles.set, hl,
      lookup_dictInsert_self]
  | some info =>
    obtain ⟨ip, iw, ifd⟩ := info
    cases ifd with
    | none =>
      refine ⟨0, ?_⟩
      simp [FileWatcher.get_file_fd, WatchedFiles.set, hl,
        lookup_dictInsert_self]
    | some pos =>
      refine ⟨pos, ?_⟩
      simp [FileWatcher.get_file_fd, WatchedFiles.set, hl,
        lookup_dictInsert_self]

theorem skip_to_file_end_frame (env : WatchEnv) (w : FileWatcher)
    (p : String) :
    (w.skip_to_file_end env p).emitted = w.emitted ∧
    (w.skip_to_file_end env p).move_cookies = w.move_cookies ∧
    (w.skip_to_file_end env p).task = w.task := by
  unfold FileWatcher.skip_to_file_end
  have h := get_file_fd_frame w p
  simp [h.1, h.2.1, h.2.2]

/-- After `_skip_to_file_end`, the entry for the path holds an open
handle positioned at end of file, and keeps its previous `path` and
`wd`. -/
theorem skip_to_file_end_lookup (env : WatchEnv) (w : FileWatcher)
    (p : String) :
    (w.skip_to_file_end env p).files.path_to_info.lookup p =
      some ⟨((w.files.path_to_info.lookup p).getD ⟨p, none, none⟩).path,
            ((w.files.path_to_info.lookup p).getD ⟨p, none, none⟩).wd,
            some (env.fs p).length⟩ := by
  cases hl : w.files.path_to_info.lookup p with
  | none =>
    simp [FileWatcher.skip_to_file_end, FileWatcher.get_file_fd,
      WatchedFiles.set, hl, lookup_dictInsert_self]
  | some info =>
    obtain ⟨ip, iw, ifd⟩ := info
    cases ifd with
    | none =>
      simp [FileWatcher.skip_to_file_end, FileWatcher.get_file_fd,
        WatchedFiles.set, hl, lookup_dictInsert_self]
    | some pos =>
      simp [FileWatcher.skip_to_file_end, FileWatcher.get_file_fd,
        WatchedFiles.set, hl, lookup_dictInsert_self]

theorem watch_file_frame (ino : Inotify) (w : FileWatcher) (p : String) :
    (FileWatcher.watch_file ino w p).2.emitted = w.emitted ∧
    (FileWatcher.watch_file ino w p).2.move_cookies = w.move_cookies ∧
    (FileWatcher.watch_file ino w p).2.task = w.task ∧
    (FileWatcher.watch_file ino w p).1.active = ino.active ++ [ino.next_wd] ∧
    (FileWatcher.watch_file ino w p).1.next_wd = ino.next_wd + 1 ∧
    (FileWatcher.watch_file ino w p).1.ignored_log = ino.ignored_log := by
  simp [FileWatcher.watch_file, Inotify.watchPath]

/-- After `_watch_file`, the entry for the path carries the fresh
descriptor and keeps its previous `path` and `fd`. -/
theorem watch_file_lookup (ino : Inotify) (w : FileWatcher) (p : String) :
    (FileWatcher.watch_file ino w p).2.files.path_to_info.lookup p =
      some ⟨((w.files.path_to_info.lookup p).getD ⟨p, none, none⟩).path,
            some ino.next_wd,
            ((w.files.path_to_info.lookup p).getD ⟨p, none, none⟩).fd⟩ := by
  cases hl : w.files.path_to_info.lookup p with
  | none =>
    simp [FileWatcher.watch_file, Inotify.watchPath, WatchedFiles.set, hl,
      lookup_dictInsert_self]
  | some info =>
    simp [FileWatcher.watch_file, Inotify.watchPath, WatchedFiles.set, hl,
      lookup_dictInsert_self]

/-!
## The checked properties
-/

/-- A rule whose regular expression matches every line with no named
groups, and whose Lua action always raises. -/
def boomRule : LuaFileRule :=
  ⟨"boom", fun _ => some [], fun _ => .error (.actionError "boom")⟩

/-- C1 is refuted: an exception raised by a rule's action on a matched
line is *not* caught — `FileAnalyzer.analyze_line` propagates it to its
caller instead of logging a warning and continuing. -/
theorem C1_counterexample :
    FileAnalyzer.analyze_line ⟨"file.txt", [boomRule]⟩ "line1" =
      .error (.actionError "boom") := rfl

/-- C1 (amended): when a rule's action raises on the converted values of
a matched line, the exception propagates unchanged out of
`LuaFileRule.analyze_line` and out of `FileAnalyzer.analyze_line` (there
is no handler and no warning; the watcher task that called it receives
the exception). -/
theorem C1_action_exception_propagates (r : LuaFileRule)
    (rest : List LuaFileRule) (p line : String) (m : List GroupItem)
    (values : List (String × PyVal)) (e : PyErr)
    (hs : r.search line = some m)
    (hc : convert_values m = .ok values)
    (ha : r.action values = .error e) :
    r.analyze_line line = .error e ∧
    FileAnalyzer.analyze_line ⟨p, r :: rest⟩ line = .error e := by
  have h1 : r.analyze_line line = .error e := by
    simp [LuaFileRule.analyze_line, hs, hc, ha]
  exact ⟨h1, by simp [FileAnalyzer.analyze_line, analyzeWithRules, h1]⟩

/-- Witness for `C1_action_exception_propagates` at a concrete rule,
line and exception. -/
theorem C1_witness :
    boomRule.search "line1" = some [] ∧
    convert_values [] = .ok [] ∧
    boomRule.action [] = .error (.actionError "boom") ∧
    (boomRule.analyze_line "line1" = .error (.actionError "boom") ∧
     FileAnalyzer.analyze_line ⟨"other.txt", [boomRule]⟩ "line1" =
       .error (.actionError "boom")) :=
  ⟨rfl, rfl, rfl,
   C1_action_exception_propagates boomRule [] "other.txt" "line1" [] []
     (.actionError "boom") rfl rfl rfl⟩

/-- C2: calling `stop()` on a watcher whose `watch()` was never called
(`self._task` is still `None`) is not a no-op: `await self._task`
executes with `self._task = None` and raises `TypeError`, which the
`except asyncio.CancelledError` clause does not catch. -/
theorem C2_stop_before_watch_raises :
    FileWatcher.stop ⟨none, WatchedFiles.empty, [], []⟩ =
      .error .typeError := rfl

/-- C5 is refuted twice: the captured string `"inf"` is accepted by
`float` (to a non-finite value), so the action receives a number where
the property demands the string; and a named group that did not
participate in the match (Python `None`) makes `float(None)` raise
`TypeError`, which `except ValueError` does not catch, instead of being
passed through as a string. -/
theorem C5_counterexample :
    convert_values [("val", some "inf")] = .ok [("val", PyVal.num "inf")] ∧
    PyVal.num "inf" ≠ PyVal.str "inf" ∧
    convert_values [("val", none)] = .error .typeError :=
  ⟨rfl, by decide, rfl⟩

/-- C5 (amended): each named capture group whose captured string is
accepted by Python `float` — including the non-finite spellings `inf`,
`infinity`, `nan` — is passed to the action as a number, every other
captured string is passed unchanged, and a named group that did not
participate in the match makes the conversion raise an uncaught
`TypeError`. -/
theorem C5_numeric_coercion (kvs pre : List (String × String))
    (k : String) (post : List GroupItem) :
    convert_values (kvs.map (fun kv => (kv.1, some kv.2))) =
      .ok (kvs.map (fun kv =>
        (kv.1, if pyFloatAccepts kv.2 then PyVal.num kv.2
               else PyVal.str kv.2))) ∧
    convert_values (pre.map (fun kv => (kv.1, some kv.2)) ++
        (k, none) :: post) =
      .error .typeError := by
  constructor
  · induction kvs with
    | nil => rfl
    | cons hd tl ih => simp [convert_values, ih]
  · induction pre with
    | nil => rfl
    | cons hd tl ih => simp [convert_values, ih]

/-- C9: after installing descriptor 2 for a path and then clearing it
with `set(path, wd=None)`, the reverse index still maps descriptor 2 to
the entry — `self._wd_to_path.pop(wd, None)` popped the key `None`, not
the old descriptor — so `files[2]` still returns the entry (now with
`wd = None`) and `wds()` still yields 2. -/
theorem C9_clear_leaves_stale_descriptor :
    ((((WatchedFiles.empty.set "file.txt" (some (some 2)) none).2).set
        "file.txt" (some none) none).2).get_by_wd 2 =
      some ⟨"file.txt", none, none⟩ ∧
    ((((WatchedFiles.empty.set "file.txt" (some (some 2)) none).2).set
        "file.txt" (some none) none).2).wds = [some 2] :=
  ⟨rfl, rfl⟩

/-!
## Registry lemmas
-/

/-- A cached non-empty rule list is returned as-is, with no state
change (the compile-once fast path). -/
theorem load_cached_nonempty (src : String → List (String × LuaRule))
    (st : RegState) (path : String) (item : CachedRules)
    (hc : st.cache.lookup path = some item) (hne : item.rules ≠ []) :
    load_rules_from_file src st path = (item, st) := by
  have hie : item.rules.isEmpty = false := by
    simpa [List.isEmpty_iff] using hne
  simp [load_rules_from_file, hc, hie]

/-- After any load, the returned rule list is what the cache holds for
the path. -/
theorem load_result_lookup (src : String → List (String × LuaRule))
    (st : RegState) (path : String) :
    ((load_rules_from_file src st path).2).cache.lookup path =
      some (load_rules_from_file src st path).1 := by
  cases hl : st.cache.lookup path with
  | none => simp [load_rules_from_file, hl, lookup_dictInsert_self]
  | some item =>
    cases hie : item.rules.isEmpty with
    | false => simp [load_rules_from_file, hl, hie]
    | true => simp [load_rules_from_file, hl, hie, lookup_dictInsert_self]

/-- When the rule source yields at least one kept rule, any load of it
returns a non-empty rule list. -/
theorem load_rules_nonempty (src : String → List (String × LuaRule))
    (st : RegState) (path : String)
    (h : (get_rules_from_file (src path)).1 ≠ []) :
    (load_rules_from_file src st path).1.rules ≠ [] := by
  cases hl : st.cache.lookup path with
  | none =>
    simp only [load_rules_from_file, hl]
    simpa [List.map_eq_nil_iff] using h
  | some item =>
    cases hie : item.rules.isEmpty with
    | false =>
      simp only [load_rules_from_file, hl, hie]
      simpa [List.isEmpty_iff] using hie
    | true =>
      simp only [load_rules_from_file, hl, hie]
      simpa [List.map_eq_nil_iff] using h

/-- A load appends at most one execution of the rule source. -/
theorem load_execs (src : String → List (String × LuaRule))
    (st : RegState) (path : String) :
    ((load_rules_from_file src st path).2).execs = st.execs ∨
    ((load_rules_from_file src st path).2).execs = st.execs ++ [path] := by
  cases hl : st.cache.lookup path with
  | none => right; simp [load_rules_from_file, hl]
  | some item =>
    cases hie : item.rules.isEmpty with
    | false => left; simp [load_rules_from_file, hl, hie]
    | true => right; simp [load_rules_from_file, hl, hie]

/-- Iterating loads from a state that one load leaves unchanged never
changes the state. -/
theorem loadIter_fixed (src : String → List (String × LuaRule))
    (path : String) (st : RegState)
    (h : (load_rules_from_file src st path).2 = st) :
    ∀ n, loadIter src path n st = st := by
  intro n
  induction n with
  | zero => rfl
  | succ m ih => simp [loadIter, h, ih]

/-- When the rule source yields no kept rules, every load re-executes it
(the cached empty list is falsy), so `n` loads append `n` executions. -/
theorem loadIter_all_empty (src : String → List (String × LuaRule))
    (path : String)
    (he : (get_rules_from_file (src path)).1 = []) :
    ∀ n (st : RegState),
      (∀ item, st.cache.lookup path = some item → item.rules = []) →
      (loadIter src path n st).execs = st.execs ++ List.replicate n path := by
  intro n
  induction n with
  | zero => intro st _; simp [loadIter]
  | succ m ih =>
    intro st hinv
    have hrec : (load_rules_from_file src st path).2 =
        ⟨dictInsert path ⟨st.nextId, []⟩ st.cache, st.nextId + 1,
         st.execs ++ [path]⟩ := by
      cases hl : st.cache.lookup path with
      | none => simp [load_rules_from_file, hl, he]
      | some item =>
        have hereq := hinv item hl
        simp [load_rules_from_file, hl, hereq, he]
    have hinv' : ∀ item,
        (⟨dictInsert path ⟨st.nextId, []⟩ st.cache, st.nextId + 1,
          st.execs ++ [path]⟩ : RegState).cache.lookup path = some item →
        item.rules = [] := by
      intro item hitem
      simp [lookup_dictInsert_self] at hitem
      simp [← hitem]
    have := ih ⟨dictInsert path ⟨st.nextId, []⟩ st.cache, st.nextId + 1,
      st.execs ++ [path]⟩ hinv'
    simp only [loadIter, hrec, this]
    simp [List.replicate_succ, List.append_assoc]

/-- Every rule kept by the harvesting loop has a non-empty regexp. -/
theorem mem_kept_regexp_ne (raw : List (String × LuaRule))
    (nm : String) (r : LuaRule) :
    (nm, r) ∈ (get_rules_from_file raw).1 → r.regexp ≠ "" := by
  induction raw with
  | nil => intro h; simp [get_rules_from_file] at h
  | cons hd tl ih =>
    obtain ⟨hn, hr⟩ := hd
    by_cases hre : hr.regexp = ""
    · intro h
      exact ih (by simpa [get_rules_from_file, hre] using h)
    · intro h
      rw [show get_rules_from_file ((hn, hr) :: tl) =
            ((hn, hr) :: (get_rules_from_file tl).1,
             (get_rules_from_file tl).2) by
          simp [get_rules_from_file, hre]] at h
      rcases List.mem_cons.mp h with heq | htl
      · injection heq with h1 h2
        subst h2
        exact hre
      · exact ih htl

/-- A rule source whose only rule has an empty regexp, so that the
harvested rule list is empty. -/
def emptyRuleSrc : String → List (String × LuaRule) := fun _ => [("rule", ⟨""⟩)]

/-- A rule source yielding one rule with a non-empty regexp. -/
def oneRuleSrc : String → List (String × LuaRule) :=
  fun _ => [("rule", ⟨"foo(?P<val>.*)foo"⟩)]

/-- C3 is refuted for a rule source yielding zero rules: `if not rules:`
treats the cached *empty* list as a cache miss, so the second
`get_file_analyzer` through the same registry re-executes the source
(two entries in the execution log) and allocates a fresh list object
(allocation tags 0 and 1), so the two analyzers do not share the rule
list by identity. -/
theorem C3_counterexample :
    (get_file_analyzer emptyRuleSrc RegState.init "file1.txt"
        "rules.lua").1.rulesId = 0 ∧
    (get_file_analyzer emptyRuleSrc
        (get_file_analyzer emptyRuleSrc RegState.init "file1.txt"
          "rules.lua").2 "file2.txt" "rules.lua").1.rulesId = 1 ∧
    (get_file_analyzer emptyRuleSrc
        (get_file_analyzer emptyRuleSrc RegState.init "file1.txt"
          "rules.lua").2 "file2.txt" "rules.lua").2.execs =
      ["rules.lua", "rules.lua"] :=
  ⟨rfl, rfl, rfl⟩

/-- C3 (amended): provided the rule source yields at least one kept
rule, two FileAnalyzers created through the same registry with the same
rule-source path hold the same compiled rule list by identity (equal
allocation tags and equal contents), and across the two creations the
source is executed at most once. -/
theorem C3_shared_when_rules_nonempty
    (src : String → List (String × LuaRule)) (st0 : RegState)
    (p1 p2 lp : String)
    (h : (get_rules_from_file (src lp)).1 ≠ []) :
    (get_file_analyzer src (get_file_analyzer src st0 p1 lp).2 p2
        lp).1.rulesId = (get_file_analyzer src st0 p1 lp).1.rulesId ∧
    (get_file_analyzer src (get_file_analyzer src st0 p1 lp).2 p2
        lp).1.rules = (get_file_analyzer src st0 p1 lp).1.rules ∧
    ((get_file_analyzer src (get_file_analyzer src st0 p1 lp).2 p2
        lp).2).execs.length ≤ st0.execs.length + 1 := by
  have hlk := load_result_lookup src st0 lp
  have hne := load_rules_nonempty src st0 lp h
  have hstable := load_cached_nonempty src
    (load_rules_from_file src st0 lp).2 lp
    (load_rules_from_file src st0 lp).1 hlk hne
  refine ⟨?_, ?_, ?_⟩
  · simp [get_file_analyzer, hstable]
  · simp [get_file_analyzer, hstable]
  · simp only [get_file_analyzer, hstable]
    rcases load_execs src st0 lp with he | he <;> simp [he]

/-- Witness for `C3_shared_when_rules_nonempty` at a concrete rule
source. -/
theorem C3_witness :
    (get_rules_from_file (oneRuleSrc "rules.lua")).1 ≠ [] ∧
    ((get_file_analyzer oneRuleSrc
        (get_file_analyzer oneRuleSrc RegState.init "file1.txt"
          "rules.lua").2 "file2.txt" "rules.lua").1.rulesId =
      (get_file_analyzer oneRuleSrc RegState.init "file1.txt"
        "rules.lua").1.rulesId ∧
     (get_file_analyzer oneRuleSrc
        (get_file_analyzer oneRuleSrc RegState.init "file1.txt"
          "rules.lua").2 "file2.txt" "rules.lua").1.rules =
      (get_file_analyzer oneRuleSrc RegState.init "file1.txt"
        "rules.lua").1.rules ∧
     ((get_file_analyzer oneRuleSrc
        (get_file_analyzer oneRuleSrc RegState.init "file1.txt"
          "rules.lua").2 "file2.txt" "rules.lua").2).execs.length ≤
      RegState.init.execs.length + 1) :=
  ⟨by decide,
   C3_shared_when_rules_nonempty oneRuleSrc RegState.init "file1.txt"
     "file2.txt" "rules.lua" (by decide)⟩

/-- C8: a harvested rule with an empty regexp is dropped (and its name
warned about) and never reaches the resulting rule list; every harvested
rule with a non-empty regexp is kept. -/
theorem C8_empty_regexp_rules_dropped (raw : List (String × LuaRule))
    (name : String) (r : LuaRule) (hmem : (name, r) ∈ raw) :
    (r.regexp = "" →
      (name, r) ∉ (get_rules_from_file raw).1 ∧
      name ∈ (get_rules_from_file raw).2) ∧
    (r.regexp ≠ "" → (name, r) ∈ (get_rules_from_file raw).1) := by
  induction raw with
  | nil => cases hmem
  | cons hd tl ih =>
    obtain ⟨hn, hr⟩ := hd
    rcases List.mem_cons.mp hmem with heq | htl
    · injection heq with h1 h2
      subst h1
      subst h2
      constructor
      · intro hre
        refine ⟨fun habs => mem_kept_regexp_ne _ _ _ habs hre, ?_⟩
        simp [get_rules_from_file, hre]
      · intro hre
        simp [get_rules_from_file, hre]
    · have ihh := ih htl
      by_cases hre' : hr.regexp = ""
      · constructor
        · intro hre
          constructor
          · intro habs
            exact (ihh.1 hre).1
              (by simpa [get_rules_from_file, hre'] using habs)
          · simp [get_rules_from_file, hre']
            exact Or.inr ((ihh.1 hre).2)
        · intro hre
          have := ihh.2 hre
          simpa [get_rules_from_file, hre'] using this
      · constructor
        · intro hre
          constructor
          · intro habs
            exact mem_kept_regexp_ne _ _ _ habs hre
          · have := (ihh.1 hre).2
            simpa [get_rules_from_file, hre'] using this
        · intro hre
          have := ihh.2 hre
          simp [get_rules_from_file, hre']
          exact Or.inr this

/-- Witness for `C8_empty_regexp_rules_dropped` at a concrete harvested
rule table. -/
theorem C8_witness :
    ("a", (⟨""⟩ : LuaRule)) ∈
      [("a", (⟨""⟩ : LuaRule)), ("b", (⟨"x"⟩ : LuaRule))] ∧
    ((((⟨""⟩ : LuaRule)).regexp = "" →
      ("a", (⟨""⟩ : LuaRule)) ∉
        (get_rules_from_file
          [("a", (⟨""⟩ : LuaRule)), ("b", (⟨"x"⟩ : LuaRule))]).1 ∧
      "a" ∈ (get_rules_from_file
          [("a", (⟨""⟩ : LuaRule)), ("b", (⟨"x"⟩ : LuaRule))]).2) ∧
     (((⟨""⟩ : LuaRule)).regexp ≠ "" →
      ("a", (⟨""⟩ : LuaRule)) ∈
        (get_rules_from_file
          [("a", (⟨""⟩ : LuaRule)), ("b", (⟨"x"⟩ : LuaRule))]).1)) :=
  ⟨by decide,
   C8_empty_regexp_rules_dropped
     [("a", ⟨""⟩), ("b", ⟨"x"⟩)] "a" ⟨""⟩ (by decide)⟩

/-- C10: per registry, a rule source harvesting at least one rule is
executed exactly once across any positive number of loads, while a rule
source harvesting zero rules is re-executed by the Lua runtime on every
load (the cached empty list is falsy, so it never acts as a cache
hit). -/
theorem C10_empty_rule_lists_not_cached
    (src : String → List (String × LuaRule)) (path : String) (n : Nat)
    (h : 1 ≤ n) :
    ((get_rules_from_file (src path)).1 ≠ [] →
      (loadIter src path n RegState.init).execs = [path]) ∧
    ((get_rules_from_file (src path)).1 = [] →
      (loadIter src path n RegState.init).execs =
        List.replicate n path) := by
  constructor
  · intro hne
    obtain ⟨m, rfl⟩ : ∃ m, n = m + 1 := ⟨n - 1, by omega⟩
    have hlk := load_result_lookup src RegState.init path
    have hrne := load_rules_nonempty src RegState.init path hne
    have hstable := load_cached_nonempty src
      (load_rules_from_file src RegState.init path).2 path
      (load_rules_from_file src RegState.init path).1 hlk hrne
    have hfix := loadIter_fixed src path
      (load_rules_from_file src RegState.init path).2
      (by rw [hstable]) m
    simp only [loadIter]
    rw [hfix]
    simp [load_rules_from_file, RegState.init]
  · intro he
    have hrun := loadIter_all_empty src path he n RegState.init
      (by
        intro item hitem
        simp [RegState.init] at hitem)
    simpa [RegState.init] using hrun

/-- Witness for `C10_empty_rule_lists_not_cached`: two loads of a
source yielding one rule execute it once. -/
theorem C10_witness :
    1 ≤ 2 ∧
    (((get_rules_from_file (oneRuleSrc "rules.lua")).1 ≠ [] →
       (loadIter oneRuleSrc "rules.lua" 2 RegState.init).execs =
         ["rules.lua"]) ∧
     ((get_rules_from_file (oneRuleSrc "rules.lua")).1 = [] →
       (loadIter oneRuleSrc "rules.lua" 2 RegState.init).execs =
         List.replicate 2 "rules.lua")) :=
  ⟨by decide,
   C10_empty_rule_lists_not_cached oneRuleSrc "rules.lua" 2 (by decide)⟩

/-- `_close_file` followed by `del self._files[file_path]` succeeds on a
tracked path and leaves no entry for it. -/
theorem close_then_del (w' : FileWatcher) (p : String)
    (h : (w'.files.path_to_info.lookup p).isSome) :
    ∃ files1, (w'.close_file p).files.del_by_path p = .ok files1 ∧
      files1.path_to_info.lookup p = none := by
  obtain ⟨info, hinfo⟩ := Option.isSome_iff_exists.mp h
  unfold FileWatcher.close_file
  simp only [WatchedFiles.get_by_path, hinfo]
  cases hfd : info.fd with
  | none =>
    refine ⟨⟨w'.files.wd_to_path, dictErase p w'.files.path_to_info⟩,
      ?_, ?_⟩
    · simp [WatchedFiles.del_by_path, hinfo]
    · exact lookup_dictErase_self p w'.files.path_to_info
  | some pos =>
    refine ⟨⟨((w'.files.set p none (some none)).2).wd_to_path,
      dictErase p ((w'.files.set p none (some none)).2).path_to_info⟩,
      ?_, ?_⟩
    · simp [WatchedFiles.del_by_path, WatchedFiles.lookup_set_self]
    · exact lookup_dictErase_self p
        ((w'.files.set p none (some none)).2).path_to_info

/-- C4: a `moved-to` directory event whose cookie is in the move-cookie
set opens the file and seeks to its end (nothing new reaches the
stream), installs a file watch, records the entry with the fresh
descriptor and the end-of-file handle, and consumes the cookie. -/
theorem C4_moved_to_known_cookie (env : WatchEnv) (ino : Inotify)
    (w : FileWatcher) (ev : DirEvent)
    (hk : ev.kind = EvKind.movedTo)
    (hm : env.pat_match ev.filename = true)
    (hc : w.move_cookies.contains ev.cookie = true) :
    ∃ ino1 w1,
      FileWatcher.handle_dir_event env ino w ev = .ok (ino1, w1) ∧
      w1.emitted = w.emitted ∧
      w1.move_cookies = w.move_cookies.erase ev.cookie ∧
      ino1.active = ino.active ++ [ino.next_wd] ∧
      ∃ info, w1.files.path_to_info.lookup ev.filename = some info ∧
        info.wd = some ino.next_wd ∧
        info.fd = some (env.fs ev.filename).length := by
  obtain ⟨kind, fname, cookie⟩ := ev
  dsimp only at hk hm hc ⊢
  subst hk
  have hc' : cookie ∈ w.move_cookies := by simpa using hc
  have hstep : FileWatcher.handle_dir_event env ino w
      ⟨EvKind.movedTo, fname, cookie⟩ =
      .ok (FileWatcher.watch_file ino
        (FileWatcher.skip_to_file_end env
          { w with move_cookies := w.move_cookies.erase cookie } fname)
        fname) := by
    simp [FileWatcher.handle_dir_event, hm, hc']
  refine ⟨(FileWatcher.watch_file ino
      (FileWatcher.skip_to_file_end env
        { w with move_cookies := w.move_cookies.erase cookie } fname)
      fname).1,
    (FileWatcher.watch_file ino
      (FileWatcher.skip_to_file_end env
        { w with move_cookies := w.move_cookies.erase cookie } fname)
      fname).2, hstep, ?_, ?_, ?_, ?_⟩
  · have h1 := (watch_file_frame ino (FileWatcher.skip_to_file_end env
      { w with move_cookies := w.move_cookies.erase cookie } fname)
      fname).1
    have h2 := (skip_to_file_end_frame env
      { w with move_cookies := w.move_cookies.erase cookie } fname).1
    rw [h1, h2]
  · have h1 := (watch_file_frame ino (FileWatcher.skip_to_file_end env
      { w with move_cookies := w.move_cookies.erase cookie } fname)
      fname).2.1
    have h2 := (skip_to_file_end_frame env
      { w with move_cookies := w.move_cookies.erase cookie } fname).2.1
    rw [h1, h2]
  · exact (watch_file_frame ino (FileWatcher.skip_to_file_end env
      { w with move_cookies := w.move_cookies.erase cookie } fname)
      fname).2.2.2.1
  · have hskip := skip_to_file_end_lookup env
      { w with move_cookies := w.move_cookies.erase cookie } fname
    have hwf := watch_file_lookup ino (FileWatcher.skip_to_file_end env
      { w with move_cookies := w.move_cookies.erase cookie } fname) fname
    rw [hskip] at hwf
    simp only [Option.getD_some] at hwf
    exact ⟨_, hwf, rfl, rfl⟩

/-- Witness for `C4_moved_to_known_cookie` at a concrete event. -/
theorem C4_witness :
    (⟨EvKind.movedTo, "file.txt", 42⟩ : DirEvent).kind = EvKind.movedTo ∧
    (⟨fun _ => true, fun _ => [104, 105], fun _ => .ok "hi"⟩ :
        WatchEnv).pat_match "file.txt" = true ∧
    ([42] : List Nat).contains 42 = true ∧
    (∃ ino1 w1,
      FileWatcher.handle_dir_event
        ⟨fun _ => true, fun _ => [104, 105], fun _ => .ok "hi"⟩
        ⟨7, [], []⟩ ⟨some (), WatchedFiles.empty, [42], []⟩
        ⟨EvKind.movedTo, "file.txt", 42⟩ = .ok (ino1, w1) ∧
      w1.emitted = (⟨some (), WatchedFiles.empty, [42], []⟩ :
        FileWatcher).emitted ∧
      w1.move_cookies = ([42] : List Nat).erase 42 ∧
      ino1.active = ([] : List Nat) ++ [7] ∧
      ∃ info, w1.files.path_to_info.lookup "file.txt" = some info ∧
        info.wd = some 7 ∧
        info.fd = some ([104, 105] : List Nat).length) :=
  ⟨rfl, rfl, by decide,
   C4_moved_to_known_cookie
     ⟨fun _ => true, fun _ => [104, 105], fun _ => .ok "hi"⟩
     ⟨7, [], []⟩ ⟨some (), WatchedFiles.empty, [42], []⟩
     ⟨EvKind.movedTo, "file.txt", 42⟩ rfl rfl (by decide)⟩

/-- C6 is refuted: a chunk of bytes that fails to decode makes
`fd.read()` raise `UnicodeDecodeError`, which propagates out of
`_read_file_content` and out of `_handle_file_event` — nothing is
dropped, no warning is logged, and the exception terminates the watch
task's event loop. -/
theorem C6_counterexample :
    FileWatcher.handle_file_event
      ⟨fun _ => true, fun _ => [255],
       fun bs => if bs = [] then .ok "" else .error .unicodeDecodeError⟩
      ⟨some (),
       (WatchedFiles.empty.set "file.txt" (some (some 3))
         (some (some 0))).2, [], []⟩
      3 true = .error .unicodeDecodeError := rfl

/-- C6 (amended): when the codec fails on the bytes between the
handle's position and end of file, `_read_file_content` raises the
decode error and `_handle_file_event` propagates it (terminating the
watcher task); the chunk is not dropped and no warning is logged. -/
theorem C6_decode_error_propagates (env : WatchEnv) (w : FileWatcher)
    (wd pos : Nat) (info : FileInfo) (e : PyErr)
    (hwd : w.files.get_by_wd wd = some info)
    (hlk : w.files.path_to_info.lookup info.path = some info)
    (hfd : info.fd = some pos)
    (hdec : env.decode ((env.fs info.path).drop pos) = .error e) :
    FileWatcher.read_file_content env w info.path false = .error e ∧
    FileWatcher.handle_file_event env w wd true = .error e := by
  have hread : FileWatcher.read_file_content env w info.path false =
      .error e := by
    simp [FileWatcher.read_file_content, FileWatcher.get_file_fd,
      WatchedFiles.set, hlk, hfd, hdec]
  exact ⟨hread, by simp [FileWatcher.handle_file_event, hwd, hread]⟩

/-- Witness for `C6_decode_error_propagates` at a concrete watcher and
codec. -/
theorem C6_witness :
    ((⟨some (),
        (WatchedFiles.empty.set "log.txt" (some (some 8))
          (some (some 0))).2, [], []⟩ :
       FileWatcher).files.get_by_wd 8 =
        some ⟨"log.txt", some 8, some 0⟩ ∧
     (⟨some (),
        (WatchedFiles.empty.set "log.txt" (some (some 8))
          (some (some 0))).2, [], []⟩ :
       FileWatcher).files.path_to_info.lookup "log.txt" =
        some ⟨"log.txt", some 8, some 0⟩ ∧
     (⟨"log.txt", some 8, some 0⟩ : FileInfo).fd = some 0 ∧
     (⟨fun _ => true, fun _ => [200, 201],
       fun bs => if bs = [] then .ok "" else
         .error .unicodeDecodeError⟩ : WatchEnv).decode
        ((([200, 201] : List Nat)).drop 0) =
       .error .unicodeDecodeError) ∧
    (FileWatcher.read_file_content
       ⟨fun _ => true, fun _ => [200, 201],
        fun bs => if bs = [] then .ok "" else
          .error .unicodeDecodeError⟩
       ⟨some (),
        (WatchedFiles.empty.set "log.txt" (some (some 8))
          (some (some 0))).2, [], []⟩
       "log.txt" false = .error .unicodeDecodeError ∧
     FileWatcher.handle_file_event
       ⟨fun _ => true, fun _ => [200, 201],
        fun bs => if bs = [] then .ok "" else
          .error .unicodeDecodeError⟩
       ⟨some (),
        (WatchedFiles.empty.set "log.txt" (some (some 8))
          (some (some 0))).2, [], []⟩
       8 true = .error .unicodeDecodeError) :=
  ⟨⟨rfl, rfl, rfl, rfl⟩,
   C6_decode_error_propagates
     ⟨fun _ => true, fun _ => [200, 201],
      fun bs => if bs = [] then .ok "" else .error .unicodeDecodeError⟩
     ⟨some (),
      (WatchedFiles.empty.set "log.txt" (some (some 8))
        (some (some 0))).2, [], []⟩
     8 0 ⟨"log.txt", some 8, some 0⟩ .unicodeDecodeError
     rfl rfl rfl rfl⟩

/-- C7 is refuted on the delete branch: a `delete` directory event for a
tracked file destroys its entry (`del self._files[file_path]`) without
any `inotify.ignore` call — in the result the entry is gone while the
descriptor 5 is still active and the ignore log is empty.  (Only the
`moved-from` branch releases the descriptor first.) -/
theorem C7_counterexample :
    FileWatcher.handle_dir_event
      ⟨fun _ => true, fun _ => [], fun _ => .ok ""⟩
      ⟨9, [5], []⟩
      ⟨some (),
       (WatchedFiles.empty.set "file.txt" (some (some 5)) none).2,
       [], []⟩
      ⟨EvKind.deleted, "file.txt", 0⟩ =
      .ok (⟨9, [5], []⟩,
        ⟨some (), ⟨[(some 5, "file.txt")], []⟩, [], []⟩) := rfl

/-- C7 (amended): on a `moved-from` event for a tracked file whose
entry holds a descriptor, the descriptor is passed to `inotify.ignore`
(released) and the entry is then dropped; `delete` events drop the
entry without an explicit release. -/
theorem C7_moved_from_releases_descriptor (env : WatchEnv)
    (ino : Inotify) (w : FileWatcher) (ev : DirEvent) (info : FileInfo)
    (wd : Nat)
    (hk : ev.kind = EvKind.movedFrom)
    (hm : env.pat_match ev.filename = true)
    (hinfo : w.files.path_to_info.lookup ev.filename = some info)
    (hwd : info.wd = some wd) :
    ∃ ino1 w1,
      FileWatcher.handle_dir_event env ino w ev = .ok (ino1, w1) ∧
      ino1.ignored_log = ino.ignored_log ++ [wd] ∧
      ino1.active = ino.active.erase wd ∧
      w1.files.path_to_info.lookup ev.filename = none := by
  obtain ⟨kind, fname, cookie⟩ := ev
  dsimp only at hk hm hinfo ⊢
  subst hk
  obtain ⟨files1, hdel, hnone⟩ := close_then_del
    { w with move_cookies :=
        if w.move_cookies.contains cookie then w.move_cookies
        else w.move_cookies ++ [cookie] } fname
    (by simp [hinfo])
  refine ⟨ino.ignoreWd wd,
    { ({ w with move_cookies :=
          if w.move_cookies.contains cookie then w.move_cookies
          else w.move_cookies ++ [cookie] } :
        FileWatcher).close_file fname with files := files1 },
    ?_, ?_, ?_, ?_⟩
  · simp only [FileWatcher.handle_dir_event, WatchedFiles.get_by_path,
      hm, hinfo, hwd, hdel]
    simp
  · simp [Inotify.ignoreWd]
  · simp [Inotify.ignoreWd]
  · exact hnone

/-- Witness for `C7_moved_from_releases_descriptor` at a concrete
moved-from event. -/
theorem C7_witness :
    ((⟨EvKind.movedFrom, "file.txt", 3⟩ : DirEvent).kind =
        EvKind.movedFrom ∧
     (⟨fun _ => true, fun _ => [], fun _ => .ok ""⟩ :
        WatchEnv).pat_match "file.txt" = true ∧
     (⟨some (),
        (WatchedFiles.empty.set "file.txt" (some (some 5)) none).2,
        [], []⟩ :
       FileWatcher).files.path_to_info.lookup "file.txt" =
        some ⟨"file.txt", some 5, none⟩ ∧
     (⟨"file.txt", some 5, none⟩ : FileInfo).wd = some 5) ∧
    (∃ ino1 w1,
      FileWatcher.handle_dir_event
        ⟨fun _ => true, fun _ => [], fun _ => .ok ""⟩ ⟨9, [5], []⟩
        ⟨some (),
         (WatchedFiles.empty.set "file.txt" (some (some 5)) none).2,
         [], []⟩
        ⟨EvKind.movedFrom, "file.txt", 3⟩ = .ok (ino1, w1) ∧
      ino1.ignored_log = ([] : List Nat) ++ [5] ∧
      ino1.active = ([5] : List Nat).erase 5 ∧
      w1.files.path_to_info.lookup "file.txt" = none) :=
  ⟨⟨rfl, rfl, rfl, rfl⟩,
   C7_moved_from_releases_descriptor
     ⟨fun _ => true, fun _ => [], fun _ => .ok ""⟩ ⟨9, [5], []⟩
     ⟨some (),
      (WatchedFiles.empty.set "file.txt" (some (some 5)) none).2,
      [], []⟩
     ⟨EvKind.movedFrom, "file.txt", 3⟩ ⟨"file.txt", some 5, none⟩ 5
     rfl rfl rfl rfl⟩
